import Mathlib

set_option maxRecDepth 10000

/-!
Verification of the paginated row-group access engine of src/app.py
(Parquet Viewer). Rows are modelled as opaque values of a type α; a file
is its schema (column names) together with the list of row groups, each a
list of rows. Column projection never changes row count or row order, so
reads return whole rows; the only failure mode expressible in this pure
model is selecting a column that is not in the schema, which is the error
the format library raises on a bad column selection.
-/

/-- Error raised inside the try-block of read_page_efficiently. The format
library raises when a selected column does not exist in the schema. -/
inductive PError where
  | invalidColumn
deriving DecidableEq

/-- A loaded parquet file: schema (column names, from
parquet_file.schema_arrow) and the row groups, each a contiguous list of
rows. src/app.py lines 53-76 load this structure. -/
structure PFile (α : Type) where
  schema : List String
  rowGroups : List (List α)

/-- Per-row-group row counts, as metadata.row_group(i).num_rows reports
them (src/app.py line 113). -/
def rowCounts {α : Type} (pf : PFile α) : List Nat :=
  pf.rowGroups.map List.length

/-- metadata.num_rows (src/app.py line 95); by the parquet format contract
this equals the sum of the per-row-group row counts. -/
def totalRows {α : Type} (pf : PFile α) : Nat :=
  (rowCounts pf).sum

/-- A column selection is valid when every requested name exists in the
schema; None means all columns (src/app.py line 89). -/
def validColumns (schema : List String) : Option (List String) → Bool
  | none => true
  | some cs => cs.all (fun c => schema.contains c)

/-- parquet_file.read(columns=cols): decode the whole file (src/app.py
line 102). Raises if a selected column does not exist. -/
def pfRead {α : Type} (pf : PFile α) (cols : Option (List String)) :
    Except PError (List α) :=
  if validColumns pf.schema cols then .ok pf.rowGroups.flatten
  else .error .invalidColumn

/-- parquet_file.read_row_group(i, columns=cols) (src/app.py line 122). -/
def pfReadRowGroup {α : Type} (pf : PFile α) (i : Nat)
    (cols : Option (List String)) : Except PError (List α) :=
  if validColumns pf.schema cols then .ok (pf.rowGroups.getD i [])
  else .error .invalidColumn

/-- The row_group_offsets list of src/app.py lines 108-115: one entry
(start_offset, end_offset, row_group_id) per row group, built from the
per-row-group row counts with a running offset. -/
def rgOffsetsAux : Nat → Nat → List Nat → List (Nat × Nat × Nat)
  | _, _, [] => []
  | off, idx, c :: cs => (off, off + c, idx) :: rgOffsetsAux (off + c) (idx + 1) cs

/-- row_group_offsets built starting at offset 0, row group id 0. -/
def rgOffsets (counts : List Nat) : List (Nat × Nat × Nat) :=
  rgOffsetsAux 0 0 counts

/-- The overlap test of src/app.py line 120: end > start_row and
start < end_row. -/
def overlapB (start_row end_row : Nat) (t : Nat × Nat × Nat) : Bool :=
  decide (start_row < t.2.1) && decide (t.1 < end_row)

/-- The entries of row_group_offsets that pass the overlap test of
src/app.py line 120 (in list order, i.e. ascending row group id). These
are exactly the row groups the PartialLoad branch decodes. -/
def overlappingEntries (counts : List Nat) (start_row end_row : Nat) : List (Nat × Nat × Nat) :=
  (rgOffsets counts).filter (overlapB start_row end_row)

/-- The chunks list of src/app.py lines 118-123: read each listed row
group in order; the first raising read aborts the whole try-block. -/
def readChunks {α : Type} (pf : PFile α) (cols : Option (List String)) :
    List (Nat × Nat × Nat) → Except PError (List (List α))
  | [] => .ok []
  | t :: ts =>
    match pfReadRowGroup pf t.2.2 cols with
    | .error e => .error e
    | .ok c =>
      match readChunks pf cols ts with
      | .error e => .error e
      | .ok cs => .ok (c :: cs)

/-- The try-block of read_page_efficiently (src/app.py lines 94-131),
before the catch-all except. df.iloc[a:b] on a DataFrame is modelled as
drop then take, which clamps exactly as pandas slicing does. -/
def read_page_body {α : Type} (pf : PFile α) (maxRowsFullLoad page ps : Nat)
    (cols : Option (List String)) : Except PError (List α) :=
  let total := totalRows pf
  let start_row := (page - 1) * ps
  let end_row := min (start_row + ps) total
  if total ≤ maxRowsFullLoad then
    match pfRead pf cols with
    | .error e => .error e
    | .ok rows => .ok ((rows.drop start_row).take (end_row - start_row))
  else
    let offsets := rgOffsets (rowCounts pf)
    match readChunks pf cols (offsets.filter (overlapB start_row end_row)) with
    | .error e => .error e
    | .ok chunks =>
      if chunks.isEmpty then .ok []
      else
        let page_start :=
          match offsets with
          | [] => 0
          | u :: _ => start_row - u.1
        .ok (((chunks.flatten).drop page_start).take ps)

/-- read_page_efficiently (src/app.py lines 79-134): the try-block result,
with the except clause turning any raised error into an empty DataFrame
(line 134). -/
def read_page_efficiently {α : Type} (pf : PFile α)
    (maxRowsFullLoad page ps : Nat) (cols : Option (List String)) : List α :=
  match read_page_body pf maxRowsFullLoad page ps cols with
  | .ok df => df
  | .error _ => []

/-- The FullLoad branch of read_page_efficiently in isolation (src/app.py
lines 100-104). -/
def fullLoadBody {α : Type} (pf : PFile α) (page ps : Nat)
    (cols : Option (List String)) : Except PError (List α) :=
  let total := totalRows pf
  let start_row := (page - 1) * ps
  let end_row := min (start_row + ps) total
  match pfRead pf cols with
  | .error e => .error e
  | .ok rows => .ok ((rows.drop start_row).take (end_row - start_row))

/-- The PartialLoad branch of read_page_efficiently in isolation
(src/app.py lines 105-131). -/
def partialLoadBody {α : Type} (pf : PFile α) (page ps : Nat)
    (cols : Option (List String)) : Except PError (List α) :=
  let total := totalRows pf
  let start_row := (page - 1) * ps
  let end_row := min (start_row + ps) total
  let offsets := rgOffsets (rowCounts pf)
  match readChunks pf cols (offsets.filter (overlapB start_row end_row)) with
  | .error e => .error e
  | .ok chunks =>
    if chunks.isEmpty then .ok []
    else
      let page_start :=
        match offsets with
        | [] => 0
        | u :: _ => start_row - u.1
      .ok (((chunks.flatten).drop page_start).take ps)

/-- DEFAULT_MAX_ROWS_FULL_LOAD (src/app.py line 29). -/
def DEFAULT_MAX_ROWS_FULL_LOAD : Nat := 100000

/-- total_pages of src/app.py lines 203 and 351:
max(1, ceil(total_rows / page_size)) via the integer formula. -/
def totalPageCount (total ps : Nat) : Nat :=
  max 1 ((total + ps - 1) / ps)

/-- The page clamp of src/app.py lines 206 and 354:
max(1, min(page, total_pages)). -/
def clampPage (requested totalPages : Nat) : Nat :=
  max 1 (min requested totalPages)

/-- The unfiltered data-tab query (src/app.py lines 350-354 and 396-401):
clamp the requested page to the valid range, then read that page. -/
def renderDataQuery {α : Type} (pf : PFile α)
    (maxRowsFullLoad requested ps : Nat) (cols : Option (List String)) :
    List α :=
  read_page_efficiently pf maxRowsFullLoad
    (clampPage requested (totalPageCount (totalRows pf) ps)) ps cols

/-- paginate_dataframe (src/app.py lines 190-211). -/
def paginate_dataframe {α : Type} (df : List α) (page ps : Nat) :
    List α × Nat :=
  let total_rows := df.length
  let total_pages := max 1 ((total_rows + ps - 1) / ps)
  let page2 := max 1 (min page total_pages)
  let start_idx := (page2 - 1) * ps
  let end_idx := min (start_idx + ps) total_rows
  ((df.drop start_idx).take (end_idx - start_idx), total_pages)

/-- Concatenation of every page the viewer can show for a given page size:
pages 1 .. totalPageCount, each read through read_page_efficiently. -/
def concatAllPages {α : Type} (pf : PFile α) (maxRowsFullLoad ps : Nat) :
    List α :=
  ((List.range (totalPageCount (totalRows pf) ps)).map
    (fun k => read_page_efficiently pf maxRowsFullLoad (k + 1) ps none)).flatten

/-- Example file: two row groups of four rows each, rows numbered by their
global position, one column named a. -/
def pfEx : PFile Nat := ⟨["a"], [[0, 1, 2, 3], [4, 5, 6, 7]]⟩


/-- Case-folded character list check: does the list h start with n. -/
def startsWithCL : List Char → List Char → Bool
  | [], _ => true
  | _ :: _, [] => false
  | a :: as, b :: bs => a == b && startsWithCL as bs

/-- Does the second list contain the first as a contiguous run. -/
def containsSubCL (n : List Char) : List Char → Bool
  | [] => startsWithCL n []
  | c :: t => startsWithCL n (c :: t) || containsSubCL n t

/-- Lowercase a character list (the case folding of case=False). -/
def lowerCL (cs : List Char) : List Char :=
  cs.map Char.toLower

/-- Case-insensitive substring containment: does hay contain needle,
ignoring case. Models pandas Series.str.contains(needle, case=False) for
needle values without regex metacharacters (the filter value a viewer
user types; the pandas call treats it as a regex, which coincides with
substring search on plain text). -/
def strContainsCI (hay needle : String) : Bool :=
  containsSubCL (lowerCL needle.toList) (lowerCL hay.toList)

/-- astype(str) on one cell of an object-dtype (string) column: pandas
renders a missing value (None) as the string None. -/
def objAstypeStr : Option String → String
  | some v => v
  | none => "None"

/-- astype(str) on one cell of a numeric column: pandas renders a missing
value (NaN) as the string nan. Non-null integer cells render as their
decimal form. -/
def intAstypeStr : Option Int → String
  | some v => toString v
  | none => "nan"

/-- The object-dtype filter branch of src/app.py line 383:
df[col].astype(str).str.contains(val, case=False, na=False). After
astype(str) no missing values remain (None has become the string None),
so the na=False flag never applies. -/
def objectMatches (cell : Option String) (val : String) : Bool :=
  strContainsCI (objAstypeStr cell) val

/-- The non-object filter branch of src/app.py line 385:
df[col].astype(str) == val. -/
def intMatches (cell : Option Int) (val : String) : Bool :=
  intAstypeStr cell == val

/-- Row filtering on an object (string) column, src/app.py lines 382-383. -/
def objectColFilter (cells : List (Option String)) (val : String) :
    List (Option String) :=
  cells.filter (fun c => objectMatches c val)

/-- Row filtering on a numeric column, src/app.py lines 384-385. -/
def intColFilter (cells : List (Option Int)) (val : String) :
    List (Option Int) :=
  cells.filter (fun c => intMatches c val)

/-- The matching rule as the spec states it for string columns: a null
value never matches; a non-null value matches when the filter value is a
case-insensitive substring of it. Stated for comparison with the code
branch objectMatches. -/
def specObjectMatches (cell : Option String) (val : String) : Bool :=
  match cell with
  | none => false
  | some v => strContainsCI v val

/-- The session state that the sidebar and the page reader share: the open
file and the live max_rows_full_load value (src/app.py lines 33-50). -/
structure Session (α : Type) where
  file : PFile α
  maxRowsFullLoad : Nat

/-- The clamp st.number_input applies to a typed value given its
min_value and max_value arguments. -/
def numberInputClamp (lo hi v : Nat) : Nat :=
  max lo (min v hi)

/-- The sidebar assignment of src/app.py lines 295-302: store the widget
value (clamped to [1000, 1000000]) into session state. The open file is
untouched. -/
def setMaxRows {α : Type} (s : Session α) (v : Nat) : Session α :=
  { s with maxRowsFullLoad := numberInputClamp 1000 1000000 v }

/-- The branch condition of src/app.py line 100, evaluated against the
live session value on every page request. -/
def usesFullLoad {α : Type} (s : Session α) : Bool :=
  decide (totalRows s.file ≤ s.maxRowsFullLoad)

/-- One page request made in a given session state (src/app.py lines
396-401 feeding line 100). -/
def sessionReadPage {α : Type} (s : Session α) (page ps : Nat)
    (cols : Option (List String)) : List α :=
  read_page_efficiently s.file s.maxRowsFullLoad page ps cols

/-- Example large file: 1200 rows in two row groups of 600, rows numbered
by global position. Large enough that a threshold inside the widget range
[1000, 1000000] can sit on either side of its row count. -/
def pfBig : PFile Nat :=
  ⟨["a"], [List.range 600, (List.range 600).map (fun x => x + 600)]⟩

/-- A session with pfBig open and the threshold set to 1500. -/
def sBig : Session Nat := ⟨pfBig, 1500⟩


/-- One row sits inside one offset entry when start_offset <= row and
row < end_offset. -/
def containsB (r : Nat) (t : Nat × Nat × Nat) : Bool :=
  decide (t.1 ≤ r) && decide (r < t.2.1)

/-- Every entry produced from a starting offset has a start at or past
that offset. -/
theorem rgOffsetsAux_start_le (counts : List Nat) :
    ∀ off idx, ∀ t ∈ rgOffsetsAux off idx counts, off ≤ t.1 := by
  induction counts with
  | nil =>
    intro off idx t ht
    simp [rgOffsetsAux] at ht
  | cons c cs ih =>
    intro off idx t ht
    simp only [rgOffsetsAux, List.mem_cons] at ht
    rcases ht with h | h
    · subst h; exact Nat.le_refl off
    · exact Nat.le_trans (Nat.le_add_right off c) (ih (off + c) (idx + 1) t h)

/-- Every entry produced from a starting id has an id at or past it. -/
theorem rgOffsetsAux_idx_le (counts : List Nat) :
    ∀ off idx, ∀ t ∈ rgOffsetsAux off idx counts, idx ≤ t.2.2 := by
  induction counts with
  | nil =>
    intro off idx t ht
    simp [rgOffsetsAux] at ht
  | cons c cs ih =>
    intro off idx t ht
    simp only [rgOffsetsAux, List.mem_cons] at ht
    rcases ht with h | h
    · subst h; exact Nat.le_refl idx
    · exact Nat.le_trans (Nat.le_succ idx) (ih (off + c) (idx + 1) t h)

/-- The row group ids of the offset list are strictly increasing. -/
theorem rgOffsetsAux_pairwise (counts : List Nat) :
    ∀ off idx, List.Pairwise (fun a b : Nat × Nat × Nat => a.2.2 < b.2.2)
      (rgOffsetsAux off idx counts) := by
  induction counts with
  | nil => intro off idx; simp [rgOffsetsAux]
  | cons c cs ih =>
    intro off idx
    simp only [rgOffsetsAux]
    refine List.Pairwise.cons ?_ (ih (off + c) (idx + 1))
    intro t ht
    have h := rgOffsetsAux_idx_le cs (off + c) (idx + 1) t ht
    show idx < t.2.2
    omega

/-- A row below the running offset sits in no produced entry. -/
theorem countP_containsB_zero (counts : List Nat) :
    ∀ off idx r, r < off →
      List.countP (containsB r) (rgOffsetsAux off idx counts) = 0 := by
  induction counts with
  | nil => intro off idx r _; simp [rgOffsetsAux]
  | cons c cs ih =>
    intro off idx r hr
    have hhead : containsB r (off, off + c, idx) = false := by
      simp only [containsB]
      simp
      omega
    simp only [rgOffsetsAux, List.countP_cons, hhead]
    simp only [if_neg (by simp : ¬ (false = true))]
    rw [ih (off + c) (idx + 1) r (by omega)]

/-- A row inside the covered range sits in exactly one produced entry. -/
theorem countP_containsB_one (counts : List Nat) :
    ∀ off idx r, off ≤ r → r < off + counts.sum →
      List.countP (containsB r) (rgOffsetsAux off idx counts) = 1 := by
  induction counts with
  | nil =>
    intro off idx r h1 h2
    simp only [List.sum_nil] at h2
    omega
  | cons c cs ih =>
    intro off idx r h1 h2
    simp only [List.sum_cons] at h2
    by_cases hc : r < off + c
    · have hhead : containsB r (off, off + c, idx) = true := by
        simp only [containsB]
        simp
        omega
      simp only [rgOffsetsAux, List.countP_cons, hhead, if_pos rfl]
      rw [countP_containsB_zero cs (off + c) (idx + 1) r hc]
      simp
    · have hhead : containsB r (off, off + c, idx) = false := by
        simp only [containsB]
        simp
        omega
      simp only [rgOffsetsAux, List.countP_cons, hhead]
      simp only [if_neg (by simp : ¬ (false = true))]
      rw [ih (off + c) (idx + 1) r (by omega) (by omega)]

/-- An entry containing a row of the requested range passes the overlap
test of src/app.py line 120. -/
theorem containsB_overlapB (s e r : Nat) (t : Nat × Nat × Nat)
    (h1 : s ≤ r) (h2 : r < e) (h : containsB r t = true) :
    overlapB s e t = true := by
  simp only [containsB] at h
  simp only [overlapB]
  simp at h ⊢
  omega

/-- Filtering by the overlap test loses no entry containing a row of the
requested range: the contained-in counts agree. -/
theorem countP_containsB_filter (s e r : Nat) (h1 : s ≤ r) (h2 : r < e) :
    ∀ l : List (Nat × Nat × Nat),
      List.countP (containsB r) (l.filter (overlapB s e)) =
        List.countP (containsB r) l := by
  intro l
  induction l with
  | nil => simp
  | cons a l ih =>
    rw [List.filter_cons]
    by_cases hov : overlapB s e a = true
    · rw [if_pos hov, List.countP_cons, List.countP_cons, ih]
    · have hca : containsB r a = false := by
        cases hcb : containsB r a
        · rfl
        · exact absurd (containsB_overlapB s e r a h1 h2 hcb) hov
      rw [if_neg hov, List.countP_cons, hca, ih]
      simp

/-- Each row of a requested range inside the file lies in exactly one of
the overlapping entries that the PartialLoad branch decodes. -/
theorem countP_overlapping_one (counts : List Nat) (s e r : Nat)
    (h1 : s ≤ r) (h2 : r < e) (h3 : e ≤ counts.sum) :
    List.countP (containsB r) (overlappingEntries counts s e) = 1 := by
  unfold overlappingEntries rgOffsets
  rw [countP_containsB_filter s e r h1 h2]
  exact countP_containsB_one counts 0 0 r (Nat.zero_le r) (by omega)

/-- The overlapping entries keep strictly increasing row group ids. -/
theorem overlapping_pairwise (counts : List Nat) (s e : Nat) :
    List.Pairwise (fun a b : Nat × Nat × Nat => a.2.2 < b.2.2)
      (overlappingEntries counts s e) := by
  unfold overlappingEntries rgOffsets
  exact List.Pairwise.sublist (List.filter_sublist _) (rgOffsetsAux_pairwise counts 0 0)

/-- C4: Row-group location. The PartialLoad branch decodes exactly the
overlappingEntries, i.e. the row_group_offsets entries with
start_offset < end_row and end_offset > start_row (this is how
read_page_body is built, src/app.py lines 117-123); those entries carry
strictly increasing row group ids (ascending processing order), and every
row r of a requested range [s, e) with e inside the file lies in exactly
one decoded entry. -/
theorem rowGroup_location_correct (counts : List Nat) (s e r : Nat)
    (h1 : s ≤ r) (h2 : r < e) (h3 : e ≤ counts.sum) :
    List.Pairwise (fun a b : Nat × Nat × Nat => a.2.2 < b.2.2)
      (overlappingEntries counts s e) ∧
    List.countP (containsB r) (overlappingEntries counts s e) = 1 :=
  ⟨overlapping_pairwise counts s e, countP_overlapping_one counts s e r h1 h2 h3⟩

/-- Witness for rowGroup_location_correct: row groups of sizes [4, 4],
requested range [3, 6), row 4. -/
theorem rowGroup_location_correct_witness :
    List.Pairwise (fun a b : Nat × Nat × Nat => a.2.2 < b.2.2)
      (overlappingEntries [4, 4] 3 6) ∧
    List.countP (containsB 4) (overlappingEntries [4, 4] 3 6) = 1 :=
  rowGroup_location_correct [4, 4] 3 6 4 (by decide) (by decide) (by decide)

/-- C5: Strategy selection. read_page_body takes the FullLoad branch
exactly when totalRows is at most the configured threshold, otherwise the
PartialLoad branch, and the default threshold constant is 100000. -/
theorem strategy_selection_threshold {α : Type} (pf : PFile α)
    (t page ps : Nat) (cols : Option (List String)) :
    read_page_body pf t page ps cols =
      (if totalRows pf ≤ t then fullLoadBody pf page ps cols
       else partialLoadBody pf page ps cols) ∧
    DEFAULT_MAX_ROWS_FULL_LOAD = 100000 := by
  constructor
  · by_cases h : totalRows pf ≤ t
    · simp only [read_page_body, fullLoadBody, if_pos h]
    · simp only [read_page_body, partialLoadBody, if_neg h]
  · rfl

/-- C1 fails on the code: on the file with row groups [0..3] and [4..7],
page 3 of size 2 (rows [4, 6)), the FullLoad branch returns rows [4, 5]
while the PartialLoad branch returns the empty page, because the local
slice offset is computed from the first row group of the file instead of
the first overlapping row group (src/app.py line 128). -/
theorem strategy_mismatch_eval :
    fullLoadBody pfEx 3 2 none = Except.ok [4, 5] ∧
    partialLoadBody pfEx 3 2 none = Except.ok ([] : List Nat) :=
  ⟨rfl, rfl⟩

/-- C2 fails on the code: with threshold 5 the same request goes through
the PartialLoad path of read_page_efficiently and returns the empty page,
although rows [4, 6) of the file are [4, 5]. -/
theorem partial_slice_offset_bug_eval :
    read_page_efficiently pfEx 5 3 2 none = [] ∧
    (pfEx.rowGroups.flatten.drop 4).take 2 = [4, 5] :=
  ⟨rfl, rfl⟩

/-- C3 fails on the code: with threshold 5 and page size 2, concatenating
all four pages of the eight-row file pfEx yields only [0, 1, 2, 3]; rows
4..7 never appear on any page. -/
theorem page_concat_gap_eval :
    concatAllPages pfEx 5 2 = [0, 1, 2, 3] ∧
    pfEx.rowGroups.flatten = [0, 1, 2, 3, 4, 5, 6, 7] :=
  ⟨rfl, rfl⟩

/-- C6: Out-of-range page clamping. A requested page number beyond the
total page count is clamped before reading, so the data-tab query returns
the last valid page, and paginate_dataframe behaves the same way; neither
errors (both are total functions). -/
theorem out_of_range_page_clamped {α : Type} (pf : PFile α) (t req ps : Nat)
    (cols : Option (List String)) (df : List α)
    (h1 : totalPageCount (totalRows pf) ps < req)
    (h2 : totalPageCount df.length ps < req) :
    renderDataQuery pf t req ps cols =
      renderDataQuery pf t (totalPageCount (totalRows pf) ps) ps cols ∧
    paginate_dataframe df req ps =
      paginate_dataframe df (totalPageCount df.length ps) ps := by
  constructor
  · simp only [renderDataQuery, clampPage, totalPageCount] at h1 ⊢
    generalize hq : (totalRows pf + ps - 1) / ps = q at h1 ⊢
    have e1 : max 1 (min req (max 1 q)) = max 1 q := by omega
    have e2 : max 1 (min (max 1 q) (max 1 q)) = max 1 q := by omega
    rw [e1, e2]
  · simp only [paginate_dataframe, totalPageCount] at h2 ⊢
    generalize hq : (df.length + ps - 1) / ps = q at h2 ⊢
    have e1 : max 1 (min req (max 1 q)) = max 1 q := by omega
    have e2 : max 1 (min (max 1 q) (max 1 q)) = max 1 q := by omega
    rw [e1, e2]

/-- Witness for out_of_range_page_clamped: pfEx has 4 pages of size 2 and
a 3-row frame has 2 pages of size 2; page 10 is beyond both. -/
theorem out_of_range_page_clamped_witness :
    renderDataQuery pfEx 5 10 2 none =
      renderDataQuery pfEx 5 (totalPageCount (totalRows pfEx) 2) 2 none ∧
    paginate_dataframe ([0, 1, 2] : List Nat) 10 2 =
      paginate_dataframe ([0, 1, 2] : List Nat)
        (totalPageCount (List.length ([0, 1, 2] : List Nat)) 2) 2 :=
  out_of_range_page_clamped pfEx 5 10 2 none [0, 1, 2] (by decide) (by decide)

/-- C8 as stated fails on the code: requesting the nonexistent column z on
pfEx makes the internal read raise, but read_page_efficiently catches the
exception (src/app.py lines 132-134) and returns an empty page instead of
propagating an InvalidColumnError. -/
theorem invalid_column_not_raised :
    read_page_efficiently pfEx 100 1 2 (some ["z"]) = ([] : List Nat) ∧
    read_page_body pfEx 100 1 2 (some ["z"]) =
      Except.error PError.invalidColumn :=
  ⟨rfl, rfl⟩

/-- C8 amended: with an invalid column selection and a page that starts
inside the file, the try-block of read_page_efficiently fails with the
invalid-column error before returning any rows, and the function then
returns the empty page. -/
theorem invalid_column_caught {α : Type} (pf : PFile α) (t page ps : Nat)
    (cols : Option (List String)) (hc : validColumns pf.schema cols = false)
    (hps : 1 ≤ ps) (hrow : (page - 1) * ps < totalRows pf) :
    read_page_body pf t page ps cols = Except.error PError.invalidColumn ∧
    read_page_efficiently pf t page ps cols = [] := by
  have hbody : read_page_body pf t page ps cols =
      Except.error PError.invalidColumn := by
    by_cases hT : totalRows pf ≤ t
    · simp only [read_page_body, if_pos hT, pfRead, hc]
      simp
    · have htot : totalRows pf = (rowCounts pf).sum := rfl
      have hne : overlappingEntries (rowCounts pf) ((page - 1) * ps)
          (min ((page - 1) * ps + ps) (totalRows pf)) ≠ [] := by
        intro hnil
        have h := countP_overlapping_one (rowCounts pf) ((page - 1) * ps)
          (min ((page - 1) * ps + ps) (totalRows pf)) ((page - 1) * ps)
          (Nat.le_refl _) (by omega) (by omega)
        rw [hnil] at h
        simp at h
      obtain ⟨a, as, hcons⟩ : ∃ a as,
          overlappingEntries (rowCounts pf) ((page - 1) * ps)
            (min ((page - 1) * ps + ps) (totalRows pf)) = a :: as := by
        cases hL : overlappingEntries (rowCounts pf) ((page - 1) * ps)
            (min ((page - 1) * ps + ps) (totalRows pf)) with
        | nil => exact absurd hL hne
        | cons a as => exact ⟨a, as, rfl⟩
      unfold overlappingEntries rgOffsets at hcons
      simp only [read_page_body, if_neg hT, rgOffsets, hcons]
      simp only [readChunks, pfReadRowGroup, hc]
      simp
  refine ⟨hbody, ?_⟩
  unfold read_page_efficiently
  rw [hbody]

/-- Witness for invalid_column_caught: pfEx with threshold 5 (PartialLoad
branch), page 1 of size 2, selected column z not in the schema. -/
theorem invalid_column_caught_witness :
    read_page_body pfEx 5 1 2 (some ["z"]) =
      Except.error PError.invalidColumn ∧
    read_page_efficiently pfEx 5 1 2 (some ["z"]) = [] :=
  invalid_column_caught pfEx 5 1 2 (some ["z"]) rfl (by decide) (by decide)

/-- C9 fails on the code: with the 1200-row file pfBig open and threshold
1500, pages load through FullLoad; lowering the threshold to 1000 through
the sidebar widget (both values inside the widget range) flips the very
next page request of the same open file to PartialLoad and changes the
returned page. -/
theorem threshold_change_affects_open_file :
    usesFullLoad sBig = true ∧
    usesFullLoad (setMaxRows sBig 1000) = false ∧
    sessionReadPage sBig 301 2 none = [600, 601] ∧
    sessionReadPage (setMaxRows sBig 1000) 301 2 none = [] :=
  ⟨by decide, by decide, by decide, by decide⟩

/-- C10: The catch-all except of read_page_efficiently (src/app.py lines
132-134) turns every error of the try-block into an empty page, so the
caller never sees an exception and cannot tell an internal failure from a
legitimately empty page. -/
theorem read_page_never_raises {α : Type} (pf : PFile α) (t page ps : Nat)
    (cols : Option (List String)) (e : PError)
    (h : read_page_body pf t page ps cols = Except.error e) :
    read_page_efficiently pf t page ps cols = [] := by
  unfold read_page_efficiently
  rw [h]

/-- Witness for read_page_never_raises: an invalid column on pfEx makes
the try-block raise and the returned page empty. -/
theorem read_page_never_raises_witness :
    read_page_efficiently pfEx 100 1 3 (some ["z"]) = [] :=
  read_page_never_raises pfEx 100 1 3 (some ["z"]) PError.invalidColumn rfl

/-- C7 fails as stated: a null cell does match. In the object-dtype branch
a None cell is coerced by astype(str) to the string None, which contains
the filter value non case-insensitively, so the null row is kept; in the
numeric branch a missing value is coerced to the string nan and matches
the filter value nan. The matching rule of the spec would drop both. -/
theorem null_row_matches_filter :
    objectColFilter [some "abc", none] "non" = [none] ∧
    specObjectMatches none "non" = false ∧
    intColFilter [some 7, none] "nan" = [none] :=
  ⟨by decide, by decide, by decide⟩

/-- C7 amended: rows match by the string rules applied to the astype(str)
coercion of the cell, with no exclusion of nulls: object columns match
when the filter value is a case-insensitive substring of the coerced cell
(null coerces to the string None), numeric columns match on exact string
equality (null coerces to the string nan). -/
theorem filter_matching_amended (cells : List (Option String))
    (icells : List (Option Int)) (val : String) (c : Option String)
    (ic : Option Int) :
    (c ∈ objectColFilter cells val ↔
      c ∈ cells ∧ strContainsCI (objAstypeStr c) val = true) ∧
    (ic ∈ intColFilter icells val ↔
      ic ∈ icells ∧ (intAstypeStr ic == val) = true) ∧
    objAstypeStr none = "None" ∧ intAstypeStr none = "nan" := by
  refine ⟨?_, ?_, rfl, rfl⟩
  · simp [objectColFilter, List.mem_filter, objectMatches]
  · simp [intColFilter, List.mem_filter, intMatches]
